import Mathlib

/-!
Shallow embedding of the climb-derivation engine of the Cycleslope
repository (`src/src/lib/settings.ts`, the slope/enrichment section).

Modelling conventions:
* JavaScript numbers are modelled as rationals (`ℚ`); all arithmetic in
  the engine is `+ - * /` and `Math.max`, which the rationals model
  exactly.
* `Math.max` is `max`; TS `number | null` is `Option ℚ`.
* The gradient-distance histogram (`GradientBreakdown`, a TS `Record`
  keyed by the fixed threshold set) is modelled as a total function
  `ℕ → ℚ`; a key absent from the record reads as `0`, matching the
  `?? 0` at every use site.
* CSV record fields reaching `parseOptionalNumberField` are modelled as
  `Option ℚ`: `none` for an absent or empty field, `some q` for a field
  whose text parses to the finite number `q` (a field whose text does not
  parse throws in the source and produces no record at all, so such rows
  never reach the histogram).
-/

/-- TS `SuitabilityLevel` from `src/i18n.ts`. -/
inductive SuitabilityLevel where
  | Friendly
  | Challenging
  | Brutal
deriving DecidableEq, Repr

/-- TS `UserSettings` interface (rider profile) from `settings.ts`. -/
structure UserSettings where
  ftp : ℚ
  riderWeightKg : ℚ
  bikeWeightKg : ℚ
  cargoWeightKg : ℚ
  frontChainringTeeth : ℚ
  rearSprocketTeeth : ℚ
  wheelCircumferenceMm : ℚ
  minCadence : ℚ
deriving DecidableEq, Repr

/-- Source `getTotalSystemMassKg`: each weight floor-clamped at 0, then summed. -/
def getTotalSystemMassKg (settings : UserSettings) : ℚ :=
  let rider := max settings.riderWeightKg 0
  let bike := max settings.bikeWeightKg 0
  let cargo := max settings.cargoWeightKg 0
  rider + bike + cargo

/-- Source `GRADIENT_THRESHOLDS = [3, 5, 7, 10, 13, 17, 20, 25, 30, 40]`. -/
def GRADIENT_THRESHOLDS : List ℕ := [3, 5, 7, 10, 13, 17, 20, 25, 30, 40]

/-- Gradient-distance histogram: threshold (percent) to cumulative km. -/
abbrev GradientBreakdown := ℕ → ℚ

/-- TS `SlopeRecord` interface. -/
structure SlopeRecord where
  name : String
  location : String
  distanceKm : ℚ
  totalAscent : ℚ
  avgGradient : ℚ
  maxGradient : ℚ
  gradientDistances : GradientBreakdown
  pathGroupId : Option String
  youtubeLink : Option String

/-- TS `SlopeMetrics` interface. -/
structure SlopeMetrics where
  minSpeedMps : ℚ
  averagePowerWatts : ℚ
  peakPowerWatts : ℚ
  ftpRatio : ℚ
  peakFtpRatio : ℚ
  sustainedFtpRatio : ℚ
  climbTimeSeconds : ℚ

/-- TS `EnrichedSlope` interface (extends `SlopeRecord`). -/
structure EnrichedSlope extends SlopeRecord where
  detailDifficultyScore : ℚ
  metrics : SlopeMetrics
  suitability : SuitabilityLevel
  burstWarning : Option ℚ
  difficultyTags : List String

/-- Source constant `G = 9.80665`. -/
def G : ℚ := 9.80665

/-- Source constant `MIN_SPEED_FLOOR = 0.7` (metres per second). -/
def MIN_SPEED_FLOOR : ℚ := 0.7

/-- Source constant `DEFAULT_CRR = 0.0045`. -/
def DEFAULT_CRR : ℚ := 0.0045

/-- Source constant `DEFAULT_CDA = 0.32`. -/
def DEFAULT_CDA : ℚ := 0.32

/-- Source constant `DEFAULT_AIR_DENSITY = 1.226`. -/
def DEFAULT_AIR_DENSITY : ℚ := 1.226

/-- Source constant `MIN_SUSTAINED_DISTANCE_KM = 0.2`. -/
def MIN_SUSTAINED_DISTANCE_KM : ℚ := 0.2

/-- Source `computeMinSpeed`. -/
def computeMinSpeed (rider : UserSettings) : ℚ :=
  let front := max rider.frontChainringTeeth 1
  let rear := max rider.rearSprocketTeeth 1
  let gearRat := front / rear
  let circumferenceM := max rider.wheelCircumferenceMm 1 / 1000
  let cadence := max rider.minCadence 30
  let speed := cadence * gearRat * circumferenceM / 60
  max speed MIN_SPEED_FLOOR

/-- Source `computePowerRequirement` (grade is a fraction, e.g. 0.13 for 13%). -/
def computePowerRequirement (grade speed : ℚ) (rider : UserSettings) : ℚ :=
  let mass := max (getTotalSystemMassKg rider) 40
  let normalizedGrade := max grade 0
  let rollingResistance := DEFAULT_CRR * mass * G
  let gravityForce := mass * G * normalizedGrade
  let aeroForce := 0.5 * DEFAULT_AIR_DENSITY * DEFAULT_CDA * speed * speed
  let power := (rollingResistance + gravityForce) * speed + aeroForce * speed
  max power 0

/-- Source `computeClimbTime`. -/
def computeClimbTime (distanceKm speed : ℚ) : ℚ :=
  let distanceMeters := max distanceKm 0 * 1000
  if speed ≤ 0 then 0 else distanceMeters / speed

/-- Source `computeSustainedDifficultyRatio`: scans the histogram thresholds,
keeps the maximum FTP ratio over thresholds whose distance clears the
0.2 km materiality floor, and returns the caller-supplied fallback when
no threshold qualifies (the accumulated maximum stays 0). -/
def computeSustainedDifficultyRatio (gradientDistances : GradientBreakdown)
    (rider : UserSettings) (minSpeed ftp totalDistanceKm fallbackRatio : ℚ) : ℚ :=
  let ftpValue := max ftp 1
  let _totalDistance := max totalDistanceKm 0
  let maxRatio := GRADIENT_THRESHOLDS.foldl
    (fun maxRatio threshold =>
      let sustainedDistance := max (gradientDistances threshold) 0
      if MIN_SUSTAINED_DISTANCE_KM ≤ sustainedDistance then
        let grade := (threshold : ℚ) / 100
        let requiredPower := computePowerRequirement grade minSpeed rider
        max maxRatio (requiredPower / ftpValue)
      else
        maxRatio)
    0
  if 0 < maxRatio then maxRatio else fallbackRatio

/-- Source `classifyDifficulty`: three bands with inclusive lower boundaries. -/
def classifyDifficulty (r : ℚ) : SuitabilityLevel :=
  if r ≤ 0.85 then
    SuitabilityLevel.Friendly
  else if r ≤ 1.05 then
    SuitabilityLevel.Challenging
  else
    SuitabilityLevel.Brutal

/-- Source `computeDetailDifficulty`; the `providedMinSpeed` argument mirrors
the optional TS parameter, with JS truthiness: a provided value of 0 falls
back to `computeMinSpeed` (the non-finite case has no rational counterpart). -/
def computeDetailDifficulty (gradientDistances : GradientBreakdown)
    (rider : UserSettings) (providedMinSpeed : Option ℚ) : ℚ :=
  let minSpeed :=
    match providedMinSpeed with
    | some v => if v = 0 then computeMinSpeed rider else v
    | none => computeMinSpeed rider
  let ftp := max rider.ftp 1
  GRADIENT_THRESHOLDS.foldl
    (fun score threshold =>
      let distance := gradientDistances threshold
      if distance = 0 then
        score
      else
        let grade := (threshold : ℚ) / 100
        let requiredPower := computePowerRequirement grade minSpeed rider
        let difficultyFactor := requiredPower / ftp
        score + distance * (threshold : ℚ) * difficultyFactor)
    0

/-- Source `buildDifficultyTags`. -/
def buildDifficultyTags (slope : SlopeRecord) (breakdown : GradientBreakdown) : List String :=
  let sustained13 := 0.8 ≤ breakdown 13 ∨ 1.2 ≤ breakdown 10
  let punchy20 := 0.2 ≤ breakdown 20 ∨ 0.1 ≤ breakdown 25
  let walls30 := 0.03 ≤ breakdown 30 ∨ 0 < breakdown 40
  let endurance := 4 ≤ slope.distanceKm ∧ 5 ≤ slope.avgGradient
  let tags :=
    (if sustained13 then ["sustained13"] else [])
      ++ (if punchy20 then ["punchy20"] else [])
      ++ (if walls30 then ["wall30"] else [])
      ++ (if endurance then ["endurance"] else [])
  let tags := if tags = [] ∧ slope.avgGradient < 5 then tags ++ ["rolling"] else tags
  if tags = [] then ["balanced"] else tags

/-- Source `enrichSlope`: the full per-climb derivation. -/
def enrichSlope (slope : SlopeRecord) (rider : UserSettings) : EnrichedSlope :=
  let minSpeed := computeMinSpeed rider
  let averagePower := computePowerRequirement (slope.avgGradient / 100) minSpeed rider
  let peakPower := computePowerRequirement (slope.maxGradient / 100) minSpeed rider
  let ftp := max rider.ftp 1
  let ftpRatio := averagePower / ftp
  let peakFtpRatio := peakPower / ftp
  let climbTimeSeconds := computeClimbTime slope.distanceKm minSpeed
  let sustainedFtpRatio := computeSustainedDifficultyRatio slope.gradientDistances
    rider minSpeed ftp slope.distanceKm ftpRatio
  let suitability := classifyDifficulty (max ftpRatio sustainedFtpRatio)
  let burstWarning := if 1.2 < peakFtpRatio then some peakFtpRatio else none
  let detailDifficultyScore := computeDetailDifficulty slope.gradientDistances rider (some minSpeed)
  let difficultyTags := buildDifficultyTags slope slope.gradientDistances
  { toSlopeRecord := slope
    detailDifficultyScore := detailDifficultyScore
    metrics :=
      { minSpeedMps := minSpeed
        averagePowerWatts := averagePower
        peakPowerWatts := peakPower
        ftpRatio := ftpRatio
        peakFtpRatio := peakFtpRatio
        sustainedFtpRatio := sustainedFtpRatio
        climbTimeSeconds := climbTimeSeconds }
    suitability := suitability
    burstWarning := burstWarning
    difficultyTags := difficultyTags }

/-- Source `parseOptionalNumberField` on a field that is absent/empty
(`none`) or parses to a finite number (`some`): absent falls back. -/
def parseOptionalNumberField (value : Option ℚ) (fallback : ℚ) : ℚ :=
  match value with
  | none => fallback
  | some v => v

/-- Source `parseGradientDistances`: builds the histogram over exactly the
fixed threshold keys, each field read independently with fallback 0 and
floor-clamped at 0; keys outside the threshold set do not exist in the
resulting record (read as 0). -/
def parseGradientDistances (record : ℕ → Option ℚ) : GradientBreakdown :=
  fun threshold =>
    if threshold ∈ GRADIENT_THRESHOLDS then
      max 0 (parseOptionalNumberField (record threshold) 0)
    else
      0

/-! Helper lemmas shared by the claim theorems. -/

/-- Unfolded form of `computePowerRequirement`. -/
lemma computePowerRequirement_def (g v : ℚ) (r : UserSettings) :
    computePowerRequirement g v r =
      max ((DEFAULT_CRR * max (getTotalSystemMassKg r) 40 * G
            + max (getTotalSystemMassKg r) 40 * G * max g 0) * v
           + 0.5 * DEFAULT_AIR_DENSITY * DEFAULT_CDA * v * v * v) 0 := rfl

lemma computePower_nonneg (g v : ℚ) (r : UserSettings) :
    0 ≤ computePowerRequirement g v r := by
  rw [computePowerRequirement_def]
  exact le_max_right _ _

lemma computePower_pos (g v : ℚ) (r : UserSettings) (hv : 0 < v) :
    0 < computePowerRequirement g v r := by
  have hm : (40 : ℚ) ≤ max (getTotalSystemMassKg r) 40 := le_max_right _ _
  have hm0 : (0 : ℚ) < max (getTotalSystemMassKg r) 40 := by linarith
  have hg0 : (0 : ℚ) ≤ max g 0 := le_max_right _ _
  rw [computePowerRequirement_def, lt_max_iff]
  left
  simp only [DEFAULT_CRR, DEFAULT_AIR_DENSITY, DEFAULT_CDA, G]
  nlinarith [mul_pos hm0 hv, mul_nonneg (mul_nonneg hm0.le hg0) hv.le,
    mul_pos (mul_pos hv hv) hv]

lemma computePower_mono (r : UserSettings) (v g1 g2 : ℚ) (hv : 0 ≤ v)
    (h : max g1 0 ≤ max g2 0) :
    computePowerRequirement g1 v r ≤ computePowerRequirement g2 v r := by
  have hmG : (0 : ℚ) ≤ max (getTotalSystemMassKg r) 40 * G := by
    have hm : (40 : ℚ) ≤ max (getTotalSystemMassKg r) 40 := le_max_right _ _
    have hG : (0 : ℚ) ≤ G := by norm_num [G]
    nlinarith
  rw [computePowerRequirement_def, computePowerRequirement_def]
  refine max_le_max ?_ le_rfl
  refine add_le_add_right (mul_le_mul_of_nonneg_right (add_le_add_left ?_ _) hv) _
  exact mul_le_mul_of_nonneg_left h hmG

lemma computePower_strictMono (r : UserSettings) (v g1 g2 : ℚ) (hv : 0 < v)
    (h0 : 0 ≤ g1) (h12 : g1 < g2) :
    computePowerRequirement g1 v r < computePowerRequirement g2 v r := by
  have hm : (40 : ℚ) ≤ max (getTotalSystemMassKg r) 40 := le_max_right _ _
  have hm0 : (0 : ℚ) < max (getTotalSystemMassKg r) 40 := by linarith
  have h1 : max g1 0 = g1 := max_eq_left h0
  have h2 : max g2 0 = g2 := max_eq_left (by linarith)
  rw [computePowerRequirement_def, computePowerRequirement_def, h1, h2]
  have hA1 : (0 : ℚ) ≤ (DEFAULT_CRR * max (getTotalSystemMassKg r) 40 * G
      + max (getTotalSystemMassKg r) 40 * G * g1) * v
      + 0.5 * DEFAULT_AIR_DENSITY * DEFAULT_CDA * v * v * v := by
    simp only [DEFAULT_CRR, DEFAULT_AIR_DENSITY, DEFAULT_CDA, G]
    nlinarith [mul_pos hm0 hv, mul_nonneg (mul_nonneg hm0.le h0) hv.le,
      mul_pos (mul_pos hv hv) hv]
  have hlt : (DEFAULT_CRR * max (getTotalSystemMassKg r) 40 * G
      + max (getTotalSystemMassKg r) 40 * G * g1) * v
      + 0.5 * DEFAULT_AIR_DENSITY * DEFAULT_CDA * v * v * v
      < (DEFAULT_CRR * max (getTotalSystemMassKg r) 40 * G
      + max (getTotalSystemMassKg r) 40 * G * g2) * v
      + 0.5 * DEFAULT_AIR_DENSITY * DEFAULT_CDA * v * v * v := by
    simp only [DEFAULT_CRR, DEFAULT_AIR_DENSITY, DEFAULT_CDA, G]
    nlinarith [mul_pos (mul_pos hm0 hv) (show (0:ℚ) < g2 - g1 by linarith)]
  rw [max_eq_left hA1, max_eq_left (le_trans hA1 hlt.le)]
  exact hlt

lemma computeMinSpeed_ge_floor (r : UserSettings) :
    MIN_SPEED_FLOOR ≤ computeMinSpeed r := le_max_right _ _

lemma computeMinSpeed_pos (r : UserSettings) : 0 < computeMinSpeed r :=
  lt_of_lt_of_le (by norm_num [MIN_SPEED_FLOOR]) (computeMinSpeed_ge_floor r)

/-! Projection lemmas for `enrichSlope`. -/

lemma enrichSlope_minSpeedMps (s : SlopeRecord) (r : UserSettings) :
    (enrichSlope s r).metrics.minSpeedMps = computeMinSpeed r := rfl

lemma enrichSlope_averagePowerWatts (s : SlopeRecord) (r : UserSettings) :
    (enrichSlope s r).metrics.averagePowerWatts
      = computePowerRequirement (s.avgGradient / 100) (computeMinSpeed r) r := rfl

lemma enrichSlope_peakPowerWatts (s : SlopeRecord) (r : UserSettings) :
    (enrichSlope s r).metrics.peakPowerWatts
      = computePowerRequirement (s.maxGradient / 100) (computeMinSpeed r) r := rfl

lemma enrichSlope_ftpRatio (s : SlopeRecord) (r : UserSettings) :
    (enrichSlope s r).metrics.ftpRatio
      = computePowerRequirement (s.avgGradient / 100) (computeMinSpeed r) r / max r.ftp 1 := rfl

lemma enrichSlope_peakFtpRatio (s : SlopeRecord) (r : UserSettings) :
    (enrichSlope s r).metrics.peakFtpRatio
      = computePowerRequirement (s.maxGradient / 100) (computeMinSpeed r) r / max r.ftp 1 := rfl

lemma enrichSlope_sustainedFtpRatio (s : SlopeRecord) (r : UserSettings) :
    (enrichSlope s r).metrics.sustainedFtpRatio
      = computeSustainedDifficultyRatio s.gradientDistances r (computeMinSpeed r)
          (max r.ftp 1) s.distanceKm ((enrichSlope s r).metrics.ftpRatio) := rfl

lemma enrichSlope_climbTimeSeconds (s : SlopeRecord) (r : UserSettings) :
    (enrichSlope s r).metrics.climbTimeSeconds
      = computeClimbTime s.distanceKm (computeMinSpeed r) := rfl

lemma enrichSlope_suitability (s : SlopeRecord) (r : UserSettings) :
    (enrichSlope s r).suitability
      = classifyDifficulty
          (max ((enrichSlope s r).metrics.ftpRatio) ((enrichSlope s r).metrics.sustainedFtpRatio)) := rfl

lemma enrichSlope_burstWarning (s : SlopeRecord) (r : UserSettings) :
    (enrichSlope s r).burstWarning
      = if 1.2 < (enrichSlope s r).metrics.peakFtpRatio
        then some ((enrichSlope s r).metrics.peakFtpRatio) else none := rfl

/-- Sample rider used to instantiate hypotheses of universally quantified
theorems (the defaults from `defaultSettings` in the source). -/
def sampleRider : UserSettings :=
  { ftp := 240, riderWeightKg := 60, bikeWeightKg := 9, cargoWeightKg := 3,
    frontChainringTeeth := 34, rearSprocketTeeth := 32,
    wheelCircumferenceMm := 2096, minCadence := 70 }

/-- Sample slope with an all-zero histogram. -/
def sampleSlope : SlopeRecord :=
  { name := "Sample", location := "HK", distanceKm := 5.6, totalAscent := 530,
    avgGradient := 9.5, maxGradient := 18, gradientDistances := fun _ => 0,
    pathGroupId := none, youtubeLink := none }

/-- C1: the suitability label is the classifier applied to
`max(averageFtpRatio, sustainedFtpRatio)`, where the average ratio is
`averagePower / max(ftpWatts, 1)` and the sustained ratio is the
sustained-effort analyzer's result with the average ratio as fallback. -/
theorem suitability_from_max_ratio (s : SlopeRecord) (r : UserSettings) :
    (enrichSlope s r).suitability
      = classifyDifficulty
          (max ((enrichSlope s r).metrics.ftpRatio) ((enrichSlope s r).metrics.sustainedFtpRatio))
    ∧ (enrichSlope s r).metrics.ftpRatio
      = computePowerRequirement (s.avgGradient / 100) (computeMinSpeed r) r / max r.ftp 1
    ∧ (enrichSlope s r).metrics.sustainedFtpRatio
      = computeSustainedDifficultyRatio s.gradientDistances r (computeMinSpeed r)
          (max r.ftp 1) s.distanceKm ((enrichSlope s r).metrics.ftpRatio) :=
  ⟨rfl, rfl, rfl⟩

/-- C2: the classifier is total with three bands, boundaries inclusive on
the lower side: `r ≤ 0.85` is Friendly, `0.85 < r ≤ 1.05` is Challenging,
`1.05 < r` is Brutal; in particular at 0.85 Friendly and at 1.05 Challenging. -/
theorem classifyDifficulty_bands :
    (∀ r : ℚ,
        (classifyDifficulty r = SuitabilityLevel.Friendly ↔ r ≤ 0.85)
        ∧ (classifyDifficulty r = SuitabilityLevel.Challenging ↔ 0.85 < r ∧ r ≤ 1.05)
        ∧ (classifyDifficulty r = SuitabilityLevel.Brutal ↔ 1.05 < r))
    ∧ classifyDifficulty 0.85 = SuitabilityLevel.Friendly
    ∧ classifyDifficulty 0.8500001 = SuitabilityLevel.Challenging
    ∧ classifyDifficulty 1.05 = SuitabilityLevel.Challenging
    ∧ classifyDifficulty 1.0500001 = SuitabilityLevel.Brutal := by
  refine ⟨fun r => ?_, by norm_num [classifyDifficulty], by norm_num [classifyDifficulty],
    by norm_num [classifyDifficulty], by norm_num [classifyDifficulty]⟩
  unfold classifyDifficulty
  split_ifs with h1 h2
  · refine ⟨iff_of_true rfl h1, iff_of_false (by simp) ?_,
      iff_of_false (by simp) (by intro h; linarith)⟩
    rintro ⟨ha, -⟩
    linarith
  · push_neg at h1
    exact ⟨iff_of_false (by simp) (by intro h; linarith), iff_of_true rfl ⟨h1, h2⟩,
      iff_of_false (by simp) (by intro h; linarith)⟩
  · push_neg at h1 h2
    refine ⟨iff_of_false (by simp) (by intro h; linarith), iff_of_false (by simp) ?_,
      iff_of_true rfl h2⟩
    rintro ⟨-, hb⟩
    linarith

/-- C5: the burst warning is present iff `peakFtpRatio > 1.2`, and when
present it equals `peakFtpRatio` exactly; at exactly 1.2 it is absent. -/
theorem burstWarning_iff (s : SlopeRecord) (r : UserSettings) :
    ((enrichSlope s r).burstWarning = some ((enrichSlope s r).metrics.peakFtpRatio)
        ↔ 1.2 < (enrichSlope s r).metrics.peakFtpRatio)
    ∧ ((enrichSlope s r).burstWarning = none
        ↔ (enrichSlope s r).metrics.peakFtpRatio ≤ 1.2)
    ∧ ∀ x : ℚ, (enrichSlope s r).burstWarning = some x
        → x = (enrichSlope s r).metrics.peakFtpRatio := by
  rw [enrichSlope_burstWarning]
  split_ifs with h
  · exact ⟨by simp [h], by simp; linarith, fun x hx => by
      simpa using hx.symm⟩
  · push_neg at h
    exact ⟨by simp; linarith, by simp [h], fun x hx => by simp at hx⟩

/-- Witness for C5: the sample slope's peak ratio exceeds 1.2, so the burst
warning is present with exactly that ratio. -/
theorem burstWarning_iff_witness :
    1.2 < (enrichSlope sampleSlope sampleRider).metrics.peakFtpRatio
    ∧ (enrichSlope sampleSlope sampleRider).burstWarning
        = some ((enrichSlope sampleSlope sampleRider).metrics.peakFtpRatio) := by
  have h : 1.2 < (enrichSlope sampleSlope sampleRider).metrics.peakFtpRatio := by
    norm_num [enrichSlope_peakFtpRatio, computePowerRequirement_def, computeMinSpeed,
      getTotalSystemMassKg, sampleSlope, sampleRider, G, DEFAULT_CRR, DEFAULT_CDA,
      DEFAULT_AIR_DENSITY, MIN_SPEED_FLOOR, max_def]
  exact ⟨h, ((burstWarning_iff sampleSlope sampleRider).1).mpr h⟩

/-- C6: required power is never negative, and negative grades are floored
to 0: for `g < 0` the power equals the power at grade 0. -/
theorem computePower_nonneg_and_negative_grade_floor
    (g v : ℚ) (r : UserSettings) (hv : 0 ≤ v) :
    0 ≤ computePowerRequirement g v r
    ∧ (g < 0 → computePowerRequirement g v r = computePowerRequirement 0 v r) := by
  refine ⟨computePower_nonneg g v r, fun hg => ?_⟩
  rw [computePowerRequirement_def, computePowerRequirement_def,
    max_eq_right hg.le, max_eq_right le_rfl]

/-- Witness for C6 at grade -5, speed 1, the sample rider. -/
theorem computePower_nonneg_and_negative_grade_floor_witness :
    (0 : ℚ) ≤ 1
    ∧ (0 ≤ computePowerRequirement (-5) 1 sampleRider
        ∧ ((-5 : ℚ) < 0
            → computePowerRequirement (-5) 1 sampleRider
              = computePowerRequirement 0 1 sampleRider)) :=
  ⟨by norm_num, computePower_nonneg_and_negative_grade_floor (-5) 1 sampleRider (by norm_num)⟩

/-- C7: for fixed rider and speed ≥ 0, required power is non-decreasing in
the grade over `0 ≤ g1 ≤ g2`. -/
theorem computePower_monotone_in_grade
    (r : UserSettings) (v g1 g2 : ℚ) (hv : 0 ≤ v) (h0 : 0 ≤ g1) (h12 : g1 ≤ g2) :
    computePowerRequirement g1 v r ≤ computePowerRequirement g2 v r :=
  computePower_mono r v g1 g2 hv (max_le_max h12 le_rfl)

/-- Witness for C7 at grades 0.02 ≤ 0.13, speed 1, the sample rider. -/
theorem computePower_monotone_in_grade_witness :
    (0 : ℚ) ≤ 1 ∧ (0 : ℚ) ≤ 0.02 ∧ (0.02 : ℚ) ≤ 0.13
    ∧ computePowerRequirement 0.02 1 sampleRider
        ≤ computePowerRequirement 0.13 1 sampleRider :=
  ⟨by norm_num, by norm_num, by norm_num,
    computePower_monotone_in_grade sampleRider 1 0.02 0.13 (by norm_num) (by norm_num) (by norm_num)⟩

/-! Lemmas about the sustained-effort analyzer. -/

lemma max_max_one (a : ℚ) : max (max a 1) 1 = max a 1 := by
  rw [max_assoc, max_self]

/-- When only the 13% threshold carries distance (0.5 km, above the floor),
the analyzer returns exactly the 13%-grade power over FTP. -/
lemma sustained_only13 (gd : GradientBreakdown) (rider : UserSettings)
    (v ftp d fb : ℚ) (hv : 0 < v)
    (h13 : gd 13 = 0.5) (hz : ∀ t ∈ GRADIENT_THRESHOLDS, t ≠ 13 → gd t = 0) :
    computeSustainedDifficultyRatio gd rider v ftp d fb
      = computePowerRequirement (13 / 100) v rider / max ftp 1 := by
  have h3 := hz 3 (by norm_num [GRADIENT_THRESHOLDS]) (by norm_num)
  have h5 := hz 5 (by norm_num [GRADIENT_THRESHOLDS]) (by norm_num)
  have h7 := hz 7 (by norm_num [GRADIENT_THRESHOLDS]) (by norm_num)
  have h10 := hz 10 (by norm_num [GRADIENT_THRESHOLDS]) (by norm_num)
  have h17 := hz 17 (by norm_num [GRADIENT_THRESHOLDS]) (by norm_num)
  have h20 := hz 20 (by norm_num [GRADIENT_THRESHOLDS]) (by norm_num)
  have h25 := hz 25 (by norm_num [GRADIENT_THRESHOLDS]) (by norm_num)
  have h30 := hz 30 (by norm_num [GRADIENT_THRESHOLDS]) (by norm_num)
  have h40 := hz 40 (by norm_num [GRADIENT_THRESHOLDS]) (by norm_num)
  have hpos : 0 < computePowerRequirement (13 / 100) v rider / max ftp 1 :=
    div_pos (computePower_pos _ _ _ hv) (lt_of_lt_of_le one_pos (le_max_right _ _))
  unfold computeSustainedDifficultyRatio
  simp only [GRADIENT_THRESHOLDS, List.foldl_cons, List.foldl_nil,
    h3, h5, h7, h10, h13, h17, h20, h25, h30, h40]
  norm_num [MIN_SUSTAINED_DISTANCE_KM, max_self]
  rw [if_pos (computePower_pos (13 / 100) v rider hv)]
  exact max_eq_right hpos.le

/-- Sample slope for C3: trivial 2% average but 0.5 km at the 13% threshold. -/
def wallSlope : SlopeRecord :=
  { name := "Wall", location := "HK", distanceKm := 5, totalAscent := 100,
    avgGradient := 2, maxGradient := 13,
    gradientDistances := fun t => if t = 13 then 0.5 else 0,
    pathGroupId := none, youtubeLink := none }

/-- C3: with a trivial 2% average but 0.5 km at the 13% threshold, the
sustained ratio is the 13%-grade power over FTP at the rider's minimum
speed, it strictly exceeds the average ratio, and the suitability label is
classified from the sustained (higher) ratio. -/
theorem sustained_dominance (s : SlopeRecord) (r : UserSettings)
    (havg : s.avgGradient = 2) (h13 : s.gradientDistances 13 = 0.5)
    (hz : ∀ t ∈ GRADIENT_THRESHOLDS, t ≠ 13 → s.gradientDistances t = 0) :
    (enrichSlope s r).metrics.sustainedFtpRatio
      = computePowerRequirement (13 / 100) (computeMinSpeed r) r / max r.ftp 1
    ∧ (enrichSlope s r).metrics.ftpRatio < (enrichSlope s r).metrics.sustainedFtpRatio
    ∧ (enrichSlope s r).suitability
        = classifyDifficulty ((enrichSlope s r).metrics.sustainedFtpRatio) := by
  have hv := computeMinSpeed_pos r
  have hftp : (0 : ℚ) < max r.ftp 1 := lt_of_lt_of_le one_pos (le_max_right _ _)
  have hsus : (enrichSlope s r).metrics.sustainedFtpRatio
      = computePowerRequirement (13 / 100) (computeMinSpeed r) r / max r.ftp 1 := by
    rw [enrichSlope_sustainedFtpRatio,
      sustained_only13 s.gradientDistances r (computeMinSpeed r) (max r.ftp 1)
        s.distanceKm ((enrichSlope s r).metrics.ftpRatio) hv h13 hz,
      max_max_one]
  have hlt : (enrichSlope s r).metrics.ftpRatio < (enrichSlope s r).metrics.sustainedFtpRatio := by
    rw [hsus, enrichSlope_ftpRatio, havg]
    rw [div_lt_div_iff_of_pos_right hftp]
    exact computePower_strictMono r (computeMinSpeed r) (2 / 100) (13 / 100) hv
      (by norm_num) (by norm_num)
  refine ⟨hsus, hlt, ?_⟩
  rw [enrichSlope_suitability, max_eq_right hlt.le]

/-- Witness for C3: the wall slope against the sample rider. -/
theorem sustained_dominance_witness :
    wallSlope.avgGradient = 2
    ∧ wallSlope.gradientDistances 13 = 0.5
    ∧ (∀ t ∈ GRADIENT_THRESHOLDS, t ≠ 13 → wallSlope.gradientDistances t = 0)
    ∧ ((enrichSlope wallSlope sampleRider).metrics.sustainedFtpRatio
        = computePowerRequirement (13 / 100) (computeMinSpeed sampleRider) sampleRider
            / max sampleRider.ftp 1
      ∧ (enrichSlope wallSlope sampleRider).metrics.ftpRatio
          < (enrichSlope wallSlope sampleRider).metrics.sustainedFtpRatio
      ∧ (enrichSlope wallSlope sampleRider).suitability
          = classifyDifficulty ((enrichSlope wallSlope sampleRider).metrics.sustainedFtpRatio)) :=
  ⟨rfl, by norm_num [wallSlope], by intro t ht hne; simp [wallSlope, hne],
    sustained_dominance wallSlope sampleRider rfl (by norm_num [wallSlope])
      (by intro t ht hne; simp [wallSlope, hne])⟩

/-- C4: when no threshold reaches the 0.2 km materiality floor the analyzer
returns the caller-supplied fallback exactly; in the enricher this makes
the sustained ratio equal the average ratio. -/
theorem sustained_fallback :
    (∀ (gd : GradientBreakdown) (rider : UserSettings) (minSpeed ftp totalDistanceKm fallbackRatio : ℚ),
      (∀ t ∈ GRADIENT_THRESHOLDS, max (gd t) 0 < MIN_SUSTAINED_DISTANCE_KM) →
      computeSustainedDifficultyRatio gd rider minSpeed ftp totalDistanceKm fallbackRatio
        = fallbackRatio)
    ∧ ∀ (s : SlopeRecord) (r : UserSettings),
      (∀ t ∈ GRADIENT_THRESHOLDS, max (s.gradientDistances t) 0 < MIN_SUSTAINED_DISTANCE_KM) →
      (enrichSlope s r).metrics.sustainedFtpRatio = (enrichSlope s r).metrics.ftpRatio := by
  have key : ∀ (gd : GradientBreakdown) (rider : UserSettings)
      (minSpeed ftp totalDistanceKm fallbackRatio : ℚ),
      (∀ t ∈ GRADIENT_THRESHOLDS, max (gd t) 0 < MIN_SUSTAINED_DISTANCE_KM) →
      computeSustainedDifficultyRatio gd rider minSpeed ftp totalDistanceKm fallbackRatio
        = fallbackRatio := by
    intro gd rider v ftp d fb h
    have h3 := not_le.mpr (h 3 (by norm_num [GRADIENT_THRESHOLDS]))
    have h5 := not_le.mpr (h 5 (by norm_num [GRADIENT_THRESHOLDS]))
    have h7 := not_le.mpr (h 7 (by norm_num [GRADIENT_THRESHOLDS]))
    have h10 := not_le.mpr (h 10 (by norm_num [GRADIENT_THRESHOLDS]))
    have h13 := not_le.mpr (h 13 (by norm_num [GRADIENT_THRESHOLDS]))
    have h17 := not_le.mpr (h 17 (by norm_num [GRADIENT_THRESHOLDS]))
    have h20 := not_le.mpr (h 20 (by norm_num [GRADIENT_THRESHOLDS]))
    have h25 := not_le.mpr (h 25 (by norm_num [GRADIENT_THRESHOLDS]))
    have h30 := not_le.mpr (h 30 (by norm_num [GRADIENT_THRESHOLDS]))
    have h40 := not_le.mpr (h 40 (by norm_num [GRADIENT_THRESHOLDS]))
    unfold computeSustainedDifficultyRatio
    simp only [GRADIENT_THRESHOLDS, List.foldl_cons, List.foldl_nil,
      if_neg h3, if_neg h5, if_neg h7, if_neg h10, if_neg h13,
      if_neg h17, if_neg h20, if_neg h25, if_neg h30, if_neg h40]
    simp
  refine ⟨key, fun s r h => ?_⟩
  rw [enrichSlope_sustainedFtpRatio, key _ _ _ _ _ _ h]

/-- Witness for C4: the all-zero-histogram sample slope and sample rider. -/
theorem sustained_fallback_witness :
    (∀ t ∈ GRADIENT_THRESHOLDS, max ((fun _ => (0 : ℚ)) t) 0 < MIN_SUSTAINED_DISTANCE_KM)
    ∧ computeSustainedDifficultyRatio (fun _ => 0) sampleRider 1 240 5 0.42 = 0.42
    ∧ (enrichSlope sampleSlope sampleRider).metrics.sustainedFtpRatio
        = (enrichSlope sampleSlope sampleRider).metrics.ftpRatio := by
  have hz : ∀ t ∈ GRADIENT_THRESHOLDS, max ((fun _ => (0 : ℚ)) t) 0 < MIN_SUSTAINED_DISTANCE_KM := by
    intro t ht
    norm_num [MIN_SUSTAINED_DISTANCE_KM]
  exact ⟨hz, sustained_fallback.1 (fun _ => 0) sampleRider 1 240 5 0.42 hz,
    sustained_fallback.2 sampleSlope sampleRider (by
      intro t ht
      norm_num [sampleSlope, MIN_SUSTAINED_DISTANCE_KM])⟩

/-- Rider with non-positive minimum cadence but ordinary gearing. -/
def lowCadenceRider : UserSettings :=
  { ftp := 240, riderWeightKg := 60, bikeWeightKg := 9, cargoWeightKg := 3,
    frontChainringTeeth := 34, rearSprocketTeeth := 32,
    wheelCircumferenceMm := 2096, minCadence := 0 }

/-- Counterexample to C8: a rider with `minCadenceRpm ≤ 0` and ordinary
gearing gets speed 2227/2000 = 1.1135 m/s (cadence clamped to 30), not 0.7. -/
theorem computeMinSpeed_low_cadence_counterexample :
    lowCadenceRider.minCadence ≤ 0
    ∧ computeMinSpeed lowCadenceRider = 2227 / 2000
    ∧ computeMinSpeed lowCadenceRider ≠ 0.7 := by
  refine ⟨le_rfl, ?_, ?_⟩ <;>
    norm_num [computeMinSpeed, lowCadenceRider, MIN_SPEED_FLOOR, max_def]

/-- C8 (amended): `computeMinSpeed` is the gearing formula floor-clamped at
0.7 m/s; the result is never below 0.7 and never 0, and it equals exactly
0.7 iff the un-clamped formula value is at most 0.7 (so `minCadenceRpm ≤ 0`
alone does not force 0.7 — the cadence is clamped to 30, not the speed). -/
theorem computeMinSpeed_floor_spec (r : UserSettings) :
    computeMinSpeed r
      = max (max r.minCadence 30
          * (max r.frontChainringTeeth 1 / max r.rearSprocketTeeth 1)
          * (max r.wheelCircumferenceMm 1 / 1000) / 60) 0.7
    ∧ 0.7 ≤ computeMinSpeed r
    ∧ computeMinSpeed r ≠ 0
    ∧ (computeMinSpeed r = 0.7
        ↔ max r.minCadence 30
            * (max r.frontChainringTeeth 1 / max r.rearSprocketTeeth 1)
            * (max r.wheelCircumferenceMm 1 / 1000) / 60 ≤ 0.7) :=
  ⟨rfl, computeMinSpeed_ge_floor r, (computeMinSpeed_pos r).ne',
    max_eq_right_iff⟩

/-- Counterexample to C9: the loader does not enforce monotonicity — a
record carrying only `gradient_40_distance_km = 5` yields a histogram with
5 km at 40% but 0 km at 3%, increasing in the threshold. -/
theorem parseGradientDistances_not_monotone :
    (3 : ℕ) ∈ GRADIENT_THRESHOLDS ∧ (40 : ℕ) ∈ GRADIENT_THRESHOLDS ∧ (3 : ℕ) < 40
    ∧ parseGradientDistances (fun t => if t = 40 then some 5 else none) 3 = 0
    ∧ parseGradientDistances (fun t => if t = 40 then some 5 else none) 40 = 5
    ∧ ¬ (parseGradientDistances (fun t => if t = 40 then some 5 else none) 40
          ≤ parseGradientDistances (fun t => if t = 40 then some 5 else none) 3) := by
  refine ⟨by norm_num [GRADIENT_THRESHOLDS], by norm_num [GRADIENT_THRESHOLDS], by norm_num,
    ?_, ?_, ?_⟩ <;>
    norm_num [parseGradientDistances, parseOptionalNumberField, GRADIENT_THRESHOLDS, max_def]

/-- C9 (amended): every loaded histogram entry is non-negative, thresholds
absent from the source data are 0, and keys outside the threshold set read
as 0; cross-threshold monotonicity is not enforced by the loader. -/
theorem parseGradientDistances_defaults (record : ℕ → Option ℚ) (t : ℕ) :
    0 ≤ parseGradientDistances record t
    ∧ (record t = none → parseGradientDistances record t = 0)
    ∧ (t ∉ GRADIENT_THRESHOLDS → parseGradientDistances record t = 0) := by
  unfold parseGradientDistances
  refine ⟨?_, fun h => ?_, fun h => ?_⟩
  · split_ifs
    · exact le_max_left _ _
    · exact le_rfl
  · rw [h]
    split_ifs <;> simp [parseOptionalNumberField]
  · rw [if_neg h]

/-- Witness for C9 (amended) at the empty record and threshold 3. -/
theorem parseGradientDistances_defaults_witness :
    ((fun _ => (none : Option ℚ)) 3 = none)
    ∧ parseGradientDistances (fun _ => none) 3 = 0 :=
  ⟨rfl, (parseGradientDistances_defaults (fun _ => none) 3).2.1 rfl⟩

lemma computeClimbTime_nonneg (d v : ℚ) : 0 ≤ computeClimbTime d v := by
  unfold computeClimbTime
  split_ifs with h
  · exact le_rfl
  · exact div_nonneg (mul_nonneg (le_max_right _ _) (by norm_num)) (le_of_lt (lt_of_not_le h))

lemma sustained_nonneg (gd : GradientBreakdown) (rider : UserSettings)
    (v ftp d fb : ℚ) (hfb : 0 ≤ fb) :
    0 ≤ computeSustainedDifficultyRatio gd rider v ftp d fb := by
  simp only [computeSustainedDifficultyRatio]
  split_ifs with h
  · exact le_of_lt h
  · exact hfb

/-- C10: enrichment is total over arbitrary rational rider fields, every
divisor-contributing quantity is clamped positive, and every produced
metric is non-negative with the minimum speed at or above the 0.7 floor. -/
theorem enrichSlope_metrics_safe (s : SlopeRecord) (r : UserSettings) :
    MIN_SPEED_FLOOR ≤ (enrichSlope s r).metrics.minSpeedMps
    ∧ 0 ≤ (enrichSlope s r).metrics.averagePowerWatts
    ∧ 0 ≤ (enrichSlope s r).metrics.peakPowerWatts
    ∧ 0 ≤ (enrichSlope s r).metrics.ftpRatio
    ∧ 0 ≤ (enrichSlope s r).metrics.peakFtpRatio
    ∧ 0 ≤ (enrichSlope s r).metrics.sustainedFtpRatio
    ∧ 0 ≤ (enrichSlope s r).metrics.climbTimeSeconds
    ∧ 0 < max r.ftp 1
    ∧ 1 ≤ max r.frontChainringTeeth 1
    ∧ 1 ≤ max r.rearSprocketTeeth 1
    ∧ 1 ≤ max r.wheelCircumferenceMm 1
    ∧ 40 ≤ max (getTotalSystemMassKg r) 40 := by
  have hftp : (0 : ℚ) < max r.ftp 1 := lt_of_lt_of_le one_pos (le_max_right _ _)
  have havg : 0 ≤ (enrichSlope s r).metrics.ftpRatio := by
    rw [enrichSlope_ftpRatio]
    exact div_nonneg (computePower_nonneg _ _ _) hftp.le
  refine ⟨computeMinSpeed_ge_floor r, ?_, ?_, havg, ?_, ?_, ?_,
    hftp, le_max_right _ _, le_max_right _ _, le_max_right _ _, le_max_right _ _⟩
  · rw [enrichSlope_averagePowerWatts]
    exact computePower_nonneg _ _ _
  · rw [enrichSlope_peakPowerWatts]
    exact computePower_nonneg _ _ _
  · rw [enrichSlope_peakFtpRatio]
    exact div_nonneg (computePower_nonneg _ _ _) hftp.le
  · rw [enrichSlope_sustainedFtpRatio]
    exact sustained_nonneg _ _ _ _ _ _ havg
  · rw [enrichSlope_climbTimeSeconds]
    exact computeClimbTime_nonneg _ _
